import Mathlib

/-!
Verification of the query-routing and multi-source aggregation engine of the
Movie-Search-API backend (FastAPI + TMDB + OMDB + Redis).

The Python source is shallowly embedded: the HTTP upstreams (TMDB catalog
endpoints, OMDB enrichment endpoint) are modelled as an `Upstream` record of
response functions, where `none` stands for a transport/network error and
`some (status, body)` for an HTTP response; the Redis cache is explicit state
threaded through the functions that touch it.  Python string operations that
the code relies on (truthiness, `.lower()`, `in`, `<`, `int(...)`) are
re-implemented on `List Char` so that everything evaluates by kernel
reduction.  ASCII case folding is used for `.lower()`, which agrees with
Python on the ASCII inputs exercised here.
-/

namespace MovieAPI

/-- Decidable equality for `Except`, used to evaluate concrete runs. -/
instance {ε α : Type} [DecidableEq ε] [DecidableEq α] : DecidableEq (Except ε α) := by
  intro a b
  cases a <;> cases b
  case error.error e e' => exact decidable_of_iff (e = e') (by simp)
  case ok.ok v v' => exact decidable_of_iff (v = v') (by simp)
  all_goals exact isFalse (by simp)

/-- Python truthiness of an `Optional[str]`: `None` and `""` are falsy. -/
def truthy : Option String → Bool
  | none => false
  | some s => !(s == "")

/-- Python `a or b` on two optional strings (first operand if truthy, else second). -/
def pyOrStr (a b : Option String) : Option String := if truthy a then a else b

/-- Python `a or ''`: collapse an optional string to a string, `None` and `""` both giving `""`. -/
def orEmpty (a : Option String) : String := a.getD ""

/-- ASCII lower-casing of a string, done on the character list so it kernel-reduces. -/
def lowerStr (s : String) : String := ⟨s.data.map Char.toLower⟩

/-- Case-insensitive string equality, embedding Python `a.lower() == b.lower()`. -/
def ciEq (a b : String) : Bool := lowerStr a == lowerStr b

/-- Character-list prefix test. -/
def isPrefixChars : List Char → List Char → Bool
  | [], _ => true
  | _ :: _, [] => false
  | a :: as, b :: bs => a == b && isPrefixChars as bs

/-- Character-list substring test (Python `needle in hay` on the underlying lists). -/
def containsChars (needle : List Char) : List Char → Bool
  | [] => needle.isEmpty
  | c :: t => isPrefixChars needle (c :: t) || containsChars needle t

/-- Case-insensitive substring test, embedding Python `needle.lower() in hay.lower()`. -/
def ciInStr (needle hay : String) : Bool :=
  containsChars (lowerStr needle).data (lowerStr hay).data

/-- Ordinal (code-point) strict comparison of character lists, embedding Python `<` on `str`. -/
def charListLt : List Char → List Char → Bool
  | _, [] => false
  | [], _ :: _ => true
  | a :: as, b :: bs =>
    if a.toNat < b.toNat then true
    else if b.toNat < a.toNat then false
    else charListLt as bs

/-- Ordinal, case-sensitive strict comparison of strings (Python `a < b`). -/
def strLt (a b : String) : Bool := charListLt a.data b.data

/-- All-digit character list to a natural number (`none` if empty or a non-digit occurs). -/
def charsToNat : List Char → Option Nat
  | [] => none
  | cs => cs.foldl (fun acc c => match acc with
      | none => none
      | some n => if c.isDigit then some (n * 10 + (c.toNat - 48)) else none) (some 0)

/-- Python `int(s)` on the strings this code feeds it: optional sign then digits,
`none` when the conversion would raise `ValueError`. -/
def pyInt (s : String) : Option Int :=
  match s.data with
  | '-' :: rest => (charsToNat rest).map (fun n => -(n : Int))
  | '+' :: rest => (charsToNat rest).map (fun n => (n : Int))
  | l => (charsToNat l).map (fun n => (n : Int))

/-- The prefix of a character list up to the first dash: `s.split('-')[0]`. -/
def takeToDash : List Char → List Char
  | [] => []
  | c :: t => if c == '-' then [] else c :: takeToDash t

/-- Python `s.split('-')[0]` as a string operation. -/
def dateHead (s : String) : String := ⟨takeToDash s.data⟩

/-- Insert into a Python-dict-like association list: overwrite in place if the key
exists, else append (insertion order preserved, last write wins). -/
def dictInsert {κ : Type} [DecidableEq κ] (m : List (κ × String)) (k : κ) (v : String) :
    List (κ × String) :=
  if m.any (fun p => p.1 = k) then m.map (fun p => if p.1 = k then (k, v) else p)
  else m ++ [(k, v)]

/-- Build a Python dict (as an ordered association list) from a list of key/value pairs. -/
def dictOfList {κ : Type} [DecidableEq κ] (l : List (κ × String)) : List (κ × String) :=
  l.foldl (fun m p => dictInsert m p.1 p.2) []

/-- Python `d.get(k)` on the association-list dict encoding. -/
def dictGet {κ : Type} [DecidableEq κ] (m : List (κ × String)) (k : κ) : Option String :=
  (m.find? (fun p => p.1 = k)).map (fun p => p.2)

/-- The two values of the `type` query literal (`'movie' | 'series'`). -/
inductive MediaType
  | movie
  | series
deriving DecidableEq, Repr

/-- `MovieSearchParams` (app/schemas/movies_schemas.py): the inbound SearchQuery. -/
structure MovieSearchParams where
  title : Option String := none
  actors : Option String := none
  type : Option MediaType := none
  genre : Option String := none
deriving DecidableEq, Repr

/-- A raw TMDB catalog item: the dict fields the code reads, with `none` for
absent-or-null fields.  `id` is the provider-native numeric ID. -/
structure Item where
  id : Nat
  title : Option String := none
  name : Option String := none
  release_date : Option String := none
  first_air_date : Option String := none
  genre_ids : List Nat := []
  poster_path : Option String := none
deriving DecidableEq, Repr

/-- `MovieResponse` (app/schemas/movies_schemas.py): the unified public record.
`source` is the provenance marker, `"TMDB"` (PrimaryOnly) or `"Merged"`. -/
structure MovieResponse where
  id : String
  title : String
  year : Option Int := none
  type : MediaType
  genres : List String := []
  actors : List String := []
  director : Option String := none
  runtime : Option String := none
  plot : Option String := none
  poster_url : Option String := none
  ratings : List (String × String) := []
  source : String
deriving DecidableEq, Repr

/-- The Match Filter `matches` (app/utils/utils_movies_client.py): True iff the
record passes every supplied query field.  (`matches` is a Lean keyword, hence
the name `matchesQuery`.) -/
def matchesQuery (movie : MovieResponse) (params : MovieSearchParams) : Bool :=
  if (match params.type with | some t => movie.type != t | none => false) then false
  else if truthy params.genre &&
      !(movie.genres.any (fun g => ciEq g (orEmpty params.genre))) then false
  else if truthy params.actors &&
      !(movie.actors.any (fun a => ciInStr (orEmpty params.actors) a)) then false
  else true

/-- Decimal digits of a positive number, most significant first (fuel-indexed). -/
def natToStrAux : Nat → Nat → List Char
  | 0, _ => []
  | _ + 1, 0 => []
  | fuel + 1, n => natToStrAux fuel (n / 10) ++ [Char.ofNat (48 + n % 10)]

/-- Python `str(n)` for a natural number, defined so it kernel-reduces. -/
def natToStr (n : Nat) : String := if n == 0 then "0" else ⟨natToStrAux (n + 1) n⟩

/-- Python `str(x)` on an `Optional[int]` (`str(None) = "None"`). -/
def pyStrOfOptNat : Option Nat → String
  | none => "None"
  | some n => natToStr n

/-- The exceptions the engine can raise: transport errors from `httpx`,
`raise_for_status` errors, and `ValueError`-class failures (bad `int(...)` or
pydantic validation). -/
inductive Err
  | network
  | httpStatus (status : Nat)
  | valueError
deriving DecidableEq, Repr

/-- `httpx.Response.raise_for_status()`: error on any non-2xx status. -/
def raiseForStatus (s : Nat) : Except Err Unit :=
  if 200 ≤ s ∧ s ≤ 299 then .ok () else .error (.httpStatus s)

/-- One entry of a TMDB person-search result: the `id` field of the person dict. -/
structure PersonItem where
  id : Option Nat := none
deriving DecidableEq, Repr

/-- The query parameters the discovery call can carry beyond the API key/page. -/
structure DiscoverQuery where
  with_genres : Option String := none
  with_cast : Option String := none
deriving DecidableEq, Repr

/-- The OMDB enrichment payload: the fields the mapper reads, `Response` being
the success flag (the string `"True"` on success). -/
structure OmdbPayload where
  Response : String := ""
  Title : Option String := none
  Year : Option String := none
  Director : Option String := none
  Runtime : Option String := none
  Plot : Option String := none
  Poster : Option String := none
  Ratings : List (String × String) := []
deriving DecidableEq, Repr

/-- The upstream HTTP world, one function per distinct endpoint the code calls.
`none` is a transport/network error (httpx raises); `some (status, body)` is an
HTTP response with the relevant body fields already decoded. -/
structure Upstream where
  genreList : Bool → Option (Nat × List (Nat × String))
  search : Option String → Bool → Option (Nat × List Item)
  personSearch : String → Option (Nat × List PersonItem)
  tvCredits : Option Nat → Option (Nat × List Item)
  discover : String → DiscoverQuery → Option (Nat × List Item)
  popular : Bool → Option (Nat × List Item)
  credits : String → Nat → Option (Nat × List (Option String))
  detail : String → Nat → Option (Nat × Option String)
  omdb : String → Option (Nat × OmdbPayload)

/-- A value stored in Redis (decoded from its JSON serialization, which
round-trips losslessly for both kinds of entry). -/
inductive CacheVal
  | genres (m : List (Nat × String))
  | popular (items : List Item)
deriving DecidableEq, Repr

/-- One Redis key with its value and the TTL it was stored with. -/
structure CacheEntry where
  key : String
  val : CacheVal
  ttl : Option Nat
deriving DecidableEq, Repr

/-- The process-wide state: the Redis cache plus a counter of upstream taxonomy
(genre-list) HTTP requests, used to observe that cache hits make no call. -/
structure St where
  cache : List CacheEntry := []
  genreCalls : Nat := 0
deriving DecidableEq, Repr

/-- The entry currently stored under a key, if any. -/
def cacheFind (c : List CacheEntry) (k : String) : Option CacheEntry :=
  c.find? (fun e => e.key == k)

/-- Redis `get`. -/
def cacheGet (c : List CacheEntry) (k : String) : Option CacheVal :=
  (cacheFind c k).map (fun e => e.val)

/-- Redis `set`: whole-value overwrite of one key (keys are unordered in the
store, so shadowing the old entry is observationally the same). -/
def cacheSet (c : List CacheEntry) (k : String) (v : CacheVal) (ttl : Option Nat) :
    List CacheEntry :=
  ⟨k, v, ttl⟩ :: c.filter (fun e => !(e.key == k))

/-- The `'tv'` / `'movie'` endpoint name for a media kind. -/
def endpointName (is_series : Bool) : String := if is_series then "tv" else "movie"

/-- `fetch_genres`: cache-aside read of the TMDB genre taxonomy; on a miss the
fetched id-to-name mapping is stored without expiry.  A cached value of the
wrong shape would make `json.loads(...).items()` fail, modelled as an error. -/
def fetch_genres (up : Upstream) (is_series : Bool) (st : St) :
    Except Err (List (Nat × String) × St) :=
  let key := "genres:" ++ endpointName is_series
  match cacheGet st.cache key with
  | some (.genres m) => .ok (m, st)
  | some (.popular _) => .error .valueError
  | none =>
    match up.genreList is_series with
    | none => .error .network
    | some (status, gl) =>
      let st1 : St := { st with genreCalls := st.genreCalls + 1 }
      if 200 ≤ status ∧ status ≤ 299 then
        let mapping := dictOfList gl
        .ok (mapping, { st1 with cache := cacheSet st1.cache key (.genres mapping) none })
      else .error (.httpStatus status)

/-- `get_search_results`: TMDB title search (first page), returning the results
list and the endpoint used. -/
def get_search_results (up : Upstream) (title : Option String) (is_series : Bool) :
    Except Err (List Item × String) :=
  let endpoint := endpointName is_series
  match up.search title is_series with
  | none => .error .network
  | some (s, results) => do
    let _ ← raiseForStatus s
    pure (results, endpoint)

/-- First genre id whose name case-insensitively equals the requested name
(`next((i for i, n in genres.items() if n.lower() == genre.lower()), None)`). -/
def resolveGenreId (genres : List (Nat × String)) (genre : String) : Option Nat :=
  (genres.find? (fun p => ciEq p.2 genre)).map (fun p => p.1)

/-- The genre-resolution snippet of the discovery paths (`if genre: ... if gid:
query['with_genres'] = gid`): resolve the optional genre name against the
taxonomy, yielding the `with_genres` filter value (`none` when the name is
falsy or unresolvable — the filter is then simply not applied). -/
def _genreFilter (up : Upstream) (is_series : Bool) (genre : Option String) (st : St) :
    Except Err (Option String × St) :=
  if truthy genre then do
    let (genres, st') ← fetch_genres up is_series st
    pure ((resolveGenreId genres (orEmpty genre)).map natToStr, st')
  else pure ((none : Option String), st)

/-- The actor-resolution snippet of the movie discovery path (`if actors: ...
if people: query['with_cast'] = ...`): first person-search match, yielding the
`with_cast` filter value (`none` when falsy or no person matches). -/
def _movieCastFilter (up : Upstream) (actors : Option String) :
    Except Err (Option String) :=
  if truthy actors then
    match up.personSearch (orEmpty actors) with
    | none => Except.error Err.network
    | some (s, people) => do
      let _ ← raiseForStatus s
      match people with
      | [] => pure (none : Option String)
      | p :: _ => pure (some (pyStrOfOptNat p.id))
  else pure (none : Option String)

/-- `_discover_movie_by_filters`: resolve the optional genre name and actor name
to discovery filters (each silently dropped if unresolvable) and issue one
`/discover/movie` call. -/
def _discover_movie_by_filters (up : Upstream) (genre actors : Option String) (st : St) :
    Except Err ((List Item × String) × St) := do
  let endpoint := "movie"
  let (gid, st1) ← _genreFilter up false genre st
  let cast ← _movieCastFilter up actors
  let query : DiscoverQuery := { with_genres := gid, with_cast := cast }
  match up.discover endpoint query with
  | none => Except.error Err.network
  | some (s, results) => do
    let _ ← raiseForStatus s
    pure ((results, endpoint), st1)

/-- `_discover_tv_by_filters`: with an actor name, resolve the first matching
person and use their TV-credit list (locally filtered by the resolved genre id
when a genre is also given); without one, a plain `/discover/tv` call. -/
def _discover_tv_by_filters (up : Upstream) (genre actors : Option String) (st : St) :
    Except Err ((List Item × String) × St) := do
  let endpoint := "tv"
  if truthy actors then
    match up.personSearch (orEmpty actors) with
    | none => Except.error Err.network
    | some (s, people) => do
      let _ ← raiseForStatus s
      match people with
      | [] => pure (([], endpoint), st)
      | p :: _ =>
        match up.tvCredits p.id with
        | none => Except.error Err.network
        | some (cs, credits) => do
          let _ ← raiseForStatus cs
          if truthy genre then do
            let (genres, st1) ← fetch_genres up true st
            match resolveGenreId genres (orEmpty genre) with
            | some gid =>
              pure ((credits.filter (fun sh => sh.genre_ids.contains gid), endpoint), st1)
            | none => pure ((credits, endpoint), st1)
          else pure ((credits, endpoint), st)
  else do
    let (gid, st1) ← _genreFilter up true genre st
    let query : DiscoverQuery := { with_genres := gid, with_cast := none }
    match up.discover endpoint query with
    | none => Except.error Err.network
    | some (s, results) => do
      let _ ← raiseForStatus s
      pure ((results, endpoint), st1)

/-- `discover_by_filters`: dispatch on the media kind. -/
def discover_by_filters (up : Upstream) (genre actors : Option String) (is_series : Bool)
    (st : St) : Except Err ((List Item × String) × St) :=
  if is_series then _discover_tv_by_filters up genre actors st
  else _discover_movie_by_filters up genre actors st

/-- `get_popular`: cache-aside read of a TMDB popularity list; a miss stores the
fetched list with the fixed popularity TTL (600 s). -/
def get_popular (up : Upstream) (is_series : Bool) (st : St) :
    Except Err (List Item × St) :=
  let key := "popular:" ++ endpointName is_series
  match cacheGet st.cache key with
  | some (.popular items) => .ok (items, st)
  | some (.genres _) => .error .valueError
  | none =>
    match up.popular is_series with
    | none => .error .network
    | some (s, items) =>
      if 200 ≤ s ∧ s ≤ 299 then
        .ok (items, { st with cache := cacheSet st.cache key (.popular items) (some 600) })
      else .error (.httpStatus s)

/-- `_fetch_credits`: full cast name list from the credits endpoint, falsy
names dropped. -/
def _fetch_credits (up : Upstream) (media_type : String) (tmdb_id : Nat) :
    Except Err (List String) :=
  match up.credits media_type tmdb_id with
  | none => .error .network
  | some (s, cast) => do
    let _ ← raiseForStatus s
    pure (cast.filterMap (fun n => match n with
      | some x => if x == "" then none else some x
      | none => none))

/-- `_get_imdb_id`: the cross-reference (IMDB) id from the per-item detail call.
Note: a non-200 status is swallowed and yields `None`, it does not raise. -/
def _get_imdb_id (up : Upstream) (media_type : String) (tmdb_id : Nat) :
    Except Err (Option String) :=
  match up.detail media_type tmdb_id with
  | none => .error .network
  | some (s, body) => .ok (if s == 200 then body else none)

/-- `_fetch_omdb_data`: the OMDB payload when the call reports success
(status 200 and `Response == 'True'`), else `None`. -/
def _fetch_omdb_data (up : Upstream) (imdb_id : String) :
    Except Err (Option OmdbPayload) :=
  match up.omdb imdb_id with
  | none => .error .network
  | some (s, data) => .ok (if s == 200 ∧ data.Response == "True" then some data else none)

/-- The catalog-side title of a raw item: `item.get('title') or item.get('name') or ''`. -/
def catalogTitle (item : Item) : String := orEmpty (pyOrStr item.title item.name)

/-- The catalog-side date string of a raw item. -/
def catalogDate (item : Item) : String :=
  orEmpty (pyOrStr item.release_date item.first_air_date)

/-- The catalog-side year: `int(date.split('-')[0]) if date else None`, with the
`ValueError` a non-numeric prefix would raise. -/
def catalogYear (item : Item) : Except Err (Option Int) :=
  let date := catalogDate item
  if date == "" then .ok none
  else match pyInt (dateHead date) with
    | some n => .ok (some n)
    | none => .error .valueError

/-- `int(omdb.get('Year')) if omdb.get('Year') else None`. -/
def omdbYear (d : OmdbPayload) : Except Err (Option Int) :=
  if truthy d.Year then
    match pyInt (orEmpty d.Year) with
    | some n => .ok (some n)
    | none => .error .valueError
  else .ok none

/-- Resolution of a raw item's genre-id list against the taxonomy, falsy names
dropped: `[genres.get(g) for g in item.get('genre_ids', []) if genres.get(g)]`. -/
def genreNames (genres : List (Nat × String)) (item : Item) : List String :=
  item.genre_ids.filterMap (fun g =>
    match dictGet genres g with
    | some n => if n == "" then none else some n
    | none => none)

/-- The output record's media type:
`params.type or ('series' if media_type == 'tv' else 'movie')`. -/
def outType (media_type : String) (params : MovieSearchParams) : MediaType :=
  params.type.getD (if media_type == "tv" then MediaType.series else MediaType.movie)

/-- The tail of `map_to_movie` once the fallible lookups are done: build the
unified record from the raw item, the fetched cast, the optional cross-reference
id and the optional OMDB payload.  Still fallible: `int(omdb['Year'])` and the
pydantic validation of a `None` title can raise. -/
def mergeRecord (item : Item) (media_type : String) (genres : List (Nat × String))
    (params : MovieSearchParams) (year : Option Int) (actors : List String)
    (imdb_id : Option String) (omdb : Option OmdbPayload) : Except Err MovieResponse :=
  let title := catalogTitle item
  let rtype := outType media_type params
  let rid : String := if truthy imdb_id then orEmpty imdb_id else natToStr item.id
  match omdb with
  | some d => do
    let poster := if truthy item.poster_path
        then some ("https://image.tmdb.org/t/p/w500" ++ orEmpty item.poster_path)
        else d.Poster
    let ratings := dictOfList d.Ratings
    let titleF ← (match (if title == "" then d.Title else some title) with
        | some t => pure t
        | none => Except.error Err.valueError)
    let yearF ← (match year with
        | some y => if y == 0 then omdbYear d else pure (some y)
        | none => omdbYear d)
    pure { id := rid, title := titleF, year := yearF, type := rtype,
           genres := genreNames genres item, actors := actors,
           director := d.Director, runtime := d.Runtime, plot := d.Plot,
           poster_url := poster, ratings := ratings, source := "Merged" }
  | none =>
    pure { id := rid, title := title, year := year, type := rtype,
           genres := genreNames genres item, actors := actors,
           director := none, runtime := none, plot := none,
           poster_url := (if truthy item.poster_path
             then some ("https://image.tmdb.org/t/p/w500" ++ orEmpty item.poster_path)
             else none),
           ratings := [], source := "TMDB" }

/-- `map_to_movie`: merge one raw catalog item with its credits, cross-reference
id and optional OMDB enrichment into one `MovieResponse`. -/
def map_to_movie (up : Upstream) (item : Item) (media_type : String)
    (genres : List (Nat × String)) (params : MovieSearchParams) :
    Except Err MovieResponse := do
  let year ← catalogYear item
  let actors ← _fetch_credits up media_type item.id
  let imdb_id ← _get_imdb_id up media_type item.id
  let omdb ← (if truthy imdb_id then _fetch_omdb_data up (orEmpty imdb_id)
      else pure (none : Option OmdbPayload))
  mergeRecord item media_type genres params year actors imdb_id omdb

/-- Map a result list to `MovieResponse`s (the `asyncio.gather` fan-out of
`map_to_movie` calls; the fan-in restores source order, so it is a `mapM`). -/
def mapAll (up : Upstream) (items : List Item) (endpoint : String)
    (genres : List (Nat × String)) (params : MovieSearchParams) :
    Except Err (List MovieResponse) :=
  items.mapM (fun item => map_to_movie up item endpoint genres params)

/-- `_search_by_title_only`: query tv and/or movie endpoints by title,
concatenating the mapped results with no post-filter. -/
def _search_by_title_only (up : Upstream) (params : MovieSearchParams) (is_series : Bool)
    (st : St) : Except Err (List MovieResponse × St) :=
  let endpoints : List String :=
    if params.type.isNone then ["tv", "movie"]
    else if is_series then ["tv"] else ["movie"]
  endpoints.foldlM (fun acc ep => do
    let (results, endpoint) ← get_search_results up params.title (ep == "tv")
    let (genres, st1) ← fetch_genres up (ep == "tv") acc.2
    let mapped ← mapAll up results endpoint genres params
    pure (acc.1 ++ mapped, st1)) (([] : List MovieResponse), st)

/-- `_search_by_title_with_filters`: actor-credit discovery for the series path
with actors, else a plain title search; then the Match Filter. -/
def _search_by_title_with_filters (up : Upstream) (params : MovieSearchParams)
    (is_series : Bool) (st : St) : Except Err (List MovieResponse × St) := do
  let ((data, endpoint), st1) ←
    (if truthy params.actors && is_series then
      discover_by_filters up params.genre params.actors is_series st
    else do
      let (d, e) ← get_search_results up params.title is_series
      pure ((d, e), st))
  let (genres, st2) ← fetch_genres up is_series st1
  let mapped ← mapAll up data endpoint genres params
  pure (mapped.filter (fun m => matchesQuery m params), st2)

/-- `_search_by_filters_only`: filter discovery then the Match Filter. -/
def _search_by_filters_only (up : Upstream) (params : MovieSearchParams)
    (is_series : Bool) (st : St) : Except Err (List MovieResponse × St) := do
  let ((data, endpoint), st1) ←
    discover_by_filters up params.genre params.actors is_series st
  let (genres, st2) ← fetch_genres up is_series st1
  let mapped ← mapAll up data endpoint genres params
  pure (mapped.filter (fun m => matchesQuery m params), st2)

/-- Stable insertion of a record into a list ordered by title (Python `<`). -/
def insertByTitle (m : MovieResponse) : List MovieResponse → List MovieResponse
  | [] => [m]
  | h :: t => if strLt m.title h.title then m :: h :: t else h :: insertByTitle m t

/-- `results.sort(key=lambda m: m.title)`: a stable sort ascending by title,
ordinal and case-sensitive (any stable sort computes the same list). -/
def sortByTitle (l : List MovieResponse) : List MovieResponse :=
  l.foldl (fun acc x => insertByTitle x acc) []

/-- `_get_popular_fallback`: both popularity lists, tagged by media type, both
taxonomies, mapped; sorted by title only when the query title is falsy;
truncated to 20. -/
def _get_popular_fallback (up : Upstream) (params : MovieSearchParams) (st : St) :
    Except Err (List MovieResponse × St) := do
  let (movie_pop, st1) ← get_popular up false st
  let (tv_pop, st2) ← get_popular up true st1
  let raw : List (Item × String) :=
    movie_pop.map (fun i => (i, "movie")) ++ tv_pop.map (fun i => (i, "tv"))
  let (genres_movie, st3) ← fetch_genres up false st2
  let (genres_tv, st4) ← fetch_genres up true st3
  let results ← raw.mapM (fun p =>
    map_to_movie up p.1 p.2 (if p.2 == "tv" then genres_tv else genres_movie) params)
  let results := if !(truthy params.title) then sortByTitle results else results
  pure (results.take 20, st4)

/-- `search_tmdb`: the Query Router. -/
def search_tmdb (up : Upstream) (params : MovieSearchParams) (st : St) :
    Except Err (List MovieResponse × St) :=
  let is_series := params.type == some MediaType.series
  let has_title := truthy params.title
  let has_filters := truthy params.genre || truthy params.actors || params.type.isSome
  if has_title && !has_filters then _search_by_title_only up params is_series st
  else if has_title && has_filters then _search_by_title_with_filters up params is_series st
  else if has_filters then _search_by_filters_only up params is_series st
  else _get_popular_fallback up params st

/-- A printable rendering of an exception (`str(e)`). -/
def errString : Err → String
  | .network => "network error"
  | .httpStatus s => "HTTP status " ++ natToStr s
  | .valueError => "value error"

/-- The inbound boundary `search_movies` (app/main.py): any exception from the
core becomes one 502 response, success returns the record list. -/
def search_movies (up : Upstream) (params : MovieSearchParams) (st : St) :
    (Nat × String) ⊕ (List MovieResponse) :=
  match search_tmdb up params st with
  | .ok (movies, _) => .inr movies
  | .error e => .inl (502, "TMDB service error: " ++ errString e)

/-! ## Helper lemmas -/

theorem bind_ok_iff {ε α β : Type} (x : Except ε α) (f : α → Except ε β) (b : β) :
    (x >>= f) = .ok b ↔ ∃ a, x = .ok a ∧ f a = .ok b := by
  cases x <;> simp [Bind.bind, Except.bind]

theorem cacheFind_cacheSet_self (c : List CacheEntry) (k : String) (v : CacheVal)
    (ttl : Option Nat) : cacheFind (cacheSet c k v ttl) k = some ⟨k, v, ttl⟩ := by
  simp [cacheFind, cacheSet, List.find?]

theorem cacheGet_cacheSet_self (c : List CacheEntry) (k : String) (v : CacheVal)
    (ttl : Option Nat) : cacheGet (cacheSet c k v ttl) k = some v := by
  simp [cacheGet, cacheFind_cacheSet_self]

theorem cache_find_filter (k k' : String) (h : k ≠ k') (c : List CacheEntry) :
    List.find? (fun e => e.key == k') (c.filter (fun e => !(e.key == k))) =
      List.find? (fun e => e.key == k') c := by
  induction c with
  | nil => rfl
  | cons e t ih =>
    by_cases he : (e.key == k) = true
    · have hne : (e.key == k') = false := by
        rw [beq_iff_eq] at he
        simp [he, h]
      simp [List.filter_cons, he, List.find?_cons, hne, ih]
    · have he' : (e.key == k) = false := by simpa using he
      simp only [List.filter_cons, he', Bool.not_false, if_true]
      simp only [List.find?_cons]
      cases hp : (e.key == k') <;> simp [ih]

theorem cacheGet_cacheSet_ne (c : List CacheEntry) (k k' : String) (v : CacheVal)
    (ttl : Option Nat) (h : k ≠ k') :
    cacheGet (cacheSet c k v ttl) k' = cacheGet c k' := by
  unfold cacheGet cacheFind cacheSet
  rw [List.find?_cons_of_neg _ (by simp [h]), cache_find_filter k k' h c]

theorem matchesQuery_true_iff (m : MovieResponse) (p : MovieSearchParams) :
    matchesQuery m p = true ↔
      ((∀ t, p.type = some t → m.type = t) ∧
       (truthy p.genre = true → ∃ g ∈ m.genres, ciEq g (orEmpty p.genre) = true) ∧
       (truthy p.actors = true → ∃ a ∈ m.actors, ciInStr (orEmpty p.actors) a = true)) := by
  unfold matchesQuery
  cases htype : p.type with
  | none =>
    cases hg : truthy p.genre <;> cases ha : truthy p.actors <;>
      simp [List.any_eq_true]
  | some t =>
    by_cases hmt : m.type = t
    · cases hg : truthy p.genre <;> cases ha : truthy p.actors <;>
        simp [hmt, List.any_eq_true]
    · simp [bne_iff_ne, hmt]

/-! ## Claim theorems -/

theorem matchesQuery_false_iff (m : MovieResponse) (p : MovieSearchParams) :
    matchesQuery m p = false ↔
      ((∃ t, p.type = some t ∧ m.type ≠ t) ∨
       (truthy p.genre = true ∧ ∀ g ∈ m.genres, ciEq g (orEmpty p.genre) = false) ∨
       (truthy p.actors = true ∧ ∀ a ∈ m.actors, ciInStr (orEmpty p.actors) a = false)) := by
  have hiff := matchesQuery_true_iff m p
  constructor
  · intro h
    have hR : ¬ ((∀ t, p.type = some t → m.type = t) ∧
        (truthy p.genre = true → ∃ g ∈ m.genres, ciEq g (orEmpty p.genre) = true) ∧
        (truthy p.actors = true → ∃ a ∈ m.actors, ciInStr (orEmpty p.actors) a = true)) := by
      intro hx
      rw [← hiff] at hx
      rw [h] at hx
      exact Bool.false_ne_true hx
    by_cases h1 : ∀ t, p.type = some t → m.type = t
    · by_cases h2 : truthy p.genre = true → ∃ g ∈ m.genres, ciEq g (orEmpty p.genre) = true
      · have h3 : ¬ (truthy p.actors = true → ∃ a ∈ m.actors,
            ciInStr (orEmpty p.actors) a = true) := fun hx => hR ⟨h1, h2, hx⟩
        push_neg at h3
        refine Or.inr (Or.inr ⟨h3.1, fun a ha => ?_⟩)
        simpa using h3.2 a ha
      · push_neg at h2
        refine Or.inr (Or.inl ⟨h2.1, fun g hg => ?_⟩)
        simpa using h2.2 g hg
    · push_neg at h1
      obtain ⟨t, ht, hmt⟩ := h1
      exact Or.inl ⟨t, ht, hmt⟩
  · intro hdisj
    by_contra hne
    have htrue : matchesQuery m p = true := by
      cases hmb : matchesQuery m p
      · exact absurd hmb hne
      · rfl
    obtain ⟨h1, h2, h3⟩ := hiff.mp htrue
    rcases hdisj with ⟨t, ht, hmt⟩ | ⟨hg, hall⟩ | ⟨ha, hall⟩
    · exact hmt (h1 t ht)
    · obtain ⟨g, hgm, hgt⟩ := h2 hg
      rw [hall g hgm] at hgt
      exact Bool.false_ne_true hgt
    · obtain ⟨a, ham, hat⟩ := h3 ha
      rw [hall a ham] at hat
      exact Bool.false_ne_true hat

/-- C2: `matches(record, query)` returns false iff some supplied query field
fails its comparison — mediaType set and different from the record's, or genre
set with no case-insensitively equal entry in the record's genres, or actors
set with no entry of the record's actors containing it case-insensitively as a
substring; with no query field supplied it returns true. -/
theorem C2_match_filter (m : MovieResponse) (p : MovieSearchParams) :
    (matchesQuery m p = false ↔
      ((∃ t, p.type = some t ∧ m.type ≠ t) ∨
       (truthy p.genre = true ∧ ∀ g ∈ m.genres, ciEq g (orEmpty p.genre) = false) ∨
       (truthy p.actors = true ∧ ∀ a ∈ m.actors, ciInStr (orEmpty p.actors) a = false)))
    ∧ (p.type = none → truthy p.genre = false → truthy p.actors = false →
        matchesQuery m p = true) := by
  refine ⟨matchesQuery_false_iff m p, fun h1 h2 h3 => ?_⟩
  refine (matchesQuery_true_iff m p).mpr ⟨?_, ?_, ?_⟩
  · intro t ht
    rw [h1] at ht
    exact absurd ht (by simp)
  · intro hx
    rw [h2] at hx
    exact absurd hx (by simp)
  · intro hx
    rw [h3] at hx
    exact absurd hx (by simp)

/-- A concrete record used to exercise the claim theorems. -/
def mW : MovieResponse :=
  { id := "1", title := "A", type := .movie, source := "TMDB" }

/-- C9: after a taxonomy cache miss that wrote the mapping back (stored with no
expiry), a second taxonomy fetch for the same media type hits the cache,
returns the same mapping, and performs no upstream taxonomy call — witnessed by
the returned state being unchanged, in particular its upstream-taxonomy call
counter `genreCalls`, which every upstream taxonomy request increments. -/
theorem C9_taxonomy_cache (up : Upstream) (is_series : Bool) (st : St)
    (m : List (Nat × String)) (st' : St)
    (hmiss : cacheGet st.cache ("genres:" ++ endpointName is_series) = none)
    (hfetch : fetch_genres up is_series st = .ok (m, st')) :
    cacheFind st'.cache ("genres:" ++ endpointName is_series) =
      some ⟨"genres:" ++ endpointName is_series, .genres m, none⟩ ∧
    fetch_genres up is_series st' = .ok (m, st') ∧
    (∀ m'' st'', fetch_genres up is_series st' = .ok (m'', st'') →
      m'' = m ∧ st''.genreCalls = st'.genreCalls) := by
  simp only [fetch_genres, hmiss] at hfetch
  cases hup : up.genreList is_series with
  | none =>
    rw [hup] at hfetch
    exact Except.noConfusion hfetch
  | some sb =>
    obtain ⟨status, gl⟩ := sb
    simp only [hup] at hfetch
    by_cases hs : 200 ≤ status ∧ status ≤ 299
    · rw [if_pos hs] at hfetch
      simp only [Except.ok.injEq, Prod.mk.injEq] at hfetch
      obtain ⟨hm, hst⟩ := hfetch
      subst hst
      subst hm
      have hhit := cacheGet_cacheSet_self st.cache ("genres:" ++ endpointName is_series)
        (.genres (dictOfList gl)) none
      refine ⟨?_, ?_, ?_⟩
      · exact cacheFind_cacheSet_self _ _ _ _
      · simp [fetch_genres, hhit]
      · intro m'' st'' hf
        simp only [fetch_genres, hhit] at hf
        simp only [Except.ok.injEq, Prod.mk.injEq] at hf
        obtain ⟨h1, h2⟩ := hf
        subst h1
        subst h2
        exact ⟨rfl, rfl⟩
    · rw [if_neg hs] at hfetch
      simp at hfetch

/-- An upstream where every call is a network error; concrete upstreams for the
witnesses override just the calls they need. -/
def upDead : Upstream where
  genreList := fun _ => none
  search := fun _ _ => none
  personSearch := fun _ => none
  tvCredits := fun _ => none
  discover := fun _ _ => none
  popular := fun _ => none
  credits := fun _ _ => none
  detail := fun _ _ => none
  omdb := fun _ => none

/-- Upstream for the C9 witness: a live taxonomy endpoint. -/
def upC9 : Upstream := { upDead with genreList := fun _ => some (200, [(28, "Action")]) }

/-- The state after the C9 witness miss: mapping cached with no TTL, one call made. -/
def stC9 : St := ⟨[⟨"genres:movie", .genres [(28, "Action")], none⟩], 1⟩

/-- Witness for C9 at a concrete upstream and empty cache. -/
theorem C9_taxonomy_cache_witness : fetch_genres upC9 false stC9 = .ok ([(28, "Action")], stC9) :=
  (C9_taxonomy_cache upC9 false {} [(28, "Action")] stC9 (by rfl) (by rfl)).2.1

/-- Witness for C2: with no query field supplied the filter accepts. -/
theorem C2_match_filter_witness : matchesQuery mW {} = true :=
  (C2_match_filter mW {}).2 rfl rfl rfl

theorem map_to_movie_ok_iff (up : Upstream) (item : Item) (media_type : String)
    (genres : List (Nat × String)) (params : MovieSearchParams) (r : MovieResponse) :
    map_to_movie up item media_type genres params = .ok r ↔
      ∃ year actors imdb_id omdb,
        catalogYear item = .ok year ∧
        _fetch_credits up media_type item.id = .ok actors ∧
        _get_imdb_id up media_type item.id = .ok imdb_id ∧
        (if truthy imdb_id then _fetch_omdb_data up (orEmpty imdb_id)
          else pure (none : Option OmdbPayload)) = .ok omdb ∧
        mergeRecord item media_type genres params year actors imdb_id omdb = .ok r := by
  unfold map_to_movie
  simp only [bind_ok_iff]
  constructor
  · rintro ⟨y, hy, a, ha, i, hi, o, ho, hm⟩
    exact ⟨y, a, i, o, hy, ha, hi, ho, hm⟩
  · rintro ⟨y, a, i, o, hy, ha, hi, ho, hm⟩
    exact ⟨y, hy, a, ha, i, hi, o, ho, hm⟩

theorem mergeRecord_none_eq (item : Item) (mt : String) (genres : List (Nat × String))
    (params : MovieSearchParams) (year : Option Int) (actors : List String)
    (imdb_id : Option String) :
    mergeRecord item mt genres params year actors imdb_id none =
      .ok { id := if truthy imdb_id then orEmpty imdb_id else natToStr item.id,
            title := catalogTitle item, year := year, type := outType mt params,
            genres := genreNames genres item, actors := actors,
            director := none, runtime := none, plot := none,
            poster_url := if truthy item.poster_path
              then some ("https://image.tmdb.org/t/p/w500" ++ orEmpty item.poster_path)
              else none,
            ratings := [], source := "TMDB" } := rfl

theorem mergeRecord_some_ok (item : Item) (mt : String) (genres : List (Nat × String))
    (params : MovieSearchParams) (year : Option Int) (actors : List String)
    (imdb_id : Option String) (d : OmdbPayload) (r : MovieResponse)
    (h : mergeRecord item mt genres params year actors imdb_id (some d) = .ok r) :
    r.source = "Merged" ∧
    r.director = d.Director ∧ r.runtime = d.Runtime ∧ r.plot = d.Plot ∧
    r.ratings = dictOfList d.Ratings ∧
    r.poster_url = (if truthy item.poster_path
      then some ("https://image.tmdb.org/t/p/w500" ++ orEmpty item.poster_path)
      else d.Poster) ∧
    r.id = (if truthy imdb_id then orEmpty imdb_id else natToStr item.id) ∧
    r.type = outType mt params ∧
    r.genres = genreNames genres item ∧ r.actors = actors ∧
    (catalogTitle item ≠ "" → r.title = catalogTitle item) ∧
    (catalogTitle item = "" → d.Title = some r.title) ∧
    (∀ y, year = some y → y ≠ 0 → r.year = some y) ∧
    ((year = none ∨ year = some 0) → omdbYear d = .ok r.year) := by
  unfold mergeRecord at h
  simp only [bind_ok_iff] at h
  obtain ⟨tF, htF, yF, hyF, hr⟩ := h
  simp only [pure, Except.pure, Except.ok.injEq] at hr
  subst hr
  refine ⟨rfl, rfl, rfl, rfl, rfl, rfl, rfl, rfl, rfl, rfl, ?_, ?_, ?_, ?_⟩
  · intro hne
    have hb : (catalogTitle item == "") = false := by simp [hne]
    simp only [hb, Bool.false_eq_true, if_false, pure, Except.pure,
      Except.ok.injEq] at htF
    subst htF
    rfl
  · intro he
    have hb : (catalogTitle item == "") = true := by simp [he]
    simp only [hb, if_true] at htF
    cases hdt : d.Title with
    | none =>
      rw [hdt] at htF
      exact Except.noConfusion htF
    | some t =>
      rw [hdt] at htF
      simp only [pure, Except.pure, Except.ok.injEq] at htF
      subst htF
      rfl
  · intro y hy hy0
    subst hy
    have hb : (y == 0) = false := by simp [hy0]
    simp only [hb, Bool.false_eq_true, if_false, pure, Except.pure,
      Except.ok.injEq] at hyF
    subst hyF
    rfl
  · intro hcase
    rcases hcase with hn | h0
    · subst hn
      simpa using hyF
    · subst h0
      simpa using hyF

/-- C4 (amended): provenance is Merged iff a truthy cross-reference id was
resolved and the enrichment lookup returned a successful payload.  When no id
resolves: PrimaryOnly provenance, empty ratings, director/runtime/plot unset,
and the id is the stringified catalog-native id.  When an id resolved but
enrichment failed: the same degradation, except the id is the cross-reference
id itself, not the catalog-native id. -/
theorem C4_provenance (up : Upstream) (item : Item) (mt : String)
    (genres : List (Nat × String)) (params : MovieSearchParams) (r : MovieResponse)
    (h : map_to_movie up item mt genres params = .ok r) :
    (r.source = "Merged" ↔ (∃ iid, _get_imdb_id up mt item.id = .ok iid ∧ truthy iid = true ∧
        ∃ d, _fetch_omdb_data up (orEmpty iid) = .ok (some d))) ∧
    (∀ iid, _get_imdb_id up mt item.id = .ok iid → truthy iid = false →
      r.source = "TMDB" ∧ r.ratings = [] ∧ r.director = none ∧ r.runtime = none ∧
      r.plot = none ∧ r.id = natToStr item.id) ∧
    (∀ iid, _get_imdb_id up mt item.id = .ok iid → truthy iid = true →
      _fetch_omdb_data up (orEmpty iid) = .ok none →
      r.source = "TMDB" ∧ r.ratings = [] ∧ r.director = none ∧ r.runtime = none ∧
      r.plot = none ∧ r.id = orEmpty iid) := by
  rw [map_to_movie_ok_iff] at h
  obtain ⟨year, actors, imdb_id, omdb, hy, ha, hi, ho, hm⟩ := h
  cases htr : truthy imdb_id with
  | false =>
    rw [htr] at ho
    simp only [Bool.false_eq_true, if_false, pure, Except.pure, Except.ok.injEq] at ho
    subst ho
    rw [mergeRecord_none_eq] at hm
    simp only [Except.ok.injEq] at hm
    subst hm
    refine ⟨⟨fun hsrc => absurd hsrc (by simp), ?_⟩, ?_, ?_⟩
    · rintro ⟨iid, hi2, htr2, hd⟩
      rw [hi] at hi2
      injection hi2 with he
      subst he
      rw [htr] at htr2
      exact Bool.noConfusion htr2
    · intro iid hi2 _
      rw [hi] at hi2
      injection hi2 with he
      subst he
      exact ⟨rfl, rfl, rfl, rfl, rfl, by simp [htr]⟩
    · intro iid hi2 htr2 _
      rw [hi] at hi2
      injection hi2 with he
      subst he
      rw [htr] at htr2
      exact Bool.noConfusion htr2
  | true =>
    rw [htr] at ho
    simp only [if_true] at ho
    cases omdb with
    | none =>
      rw [mergeRecord_none_eq] at hm
      simp only [Except.ok.injEq] at hm
      subst hm
      refine ⟨⟨fun hsrc => absurd hsrc (by simp), ?_⟩, ?_, ?_⟩
      · rintro ⟨iid, hi2, htr2, d, hd⟩
        rw [hi] at hi2
        injection hi2 with he
        subst he
        rw [ho] at hd
        simp at hd
      · intro iid hi2 htr2
        rw [hi] at hi2
        injection hi2 with he
        subst he
        rw [htr] at htr2
        exact Bool.noConfusion htr2
      · intro iid hi2 _ _
        rw [hi] at hi2
        injection hi2 with he
        subst he
        exact ⟨rfl, rfl, rfl, rfl, rfl, by simp [htr]⟩
    | some d =>
      have hd := mergeRecord_some_ok _ _ _ _ _ _ _ _ _ hm
      refine ⟨⟨fun _ => ⟨imdb_id, hi, htr, d, ho⟩, fun _ => hd.1⟩, ?_, ?_⟩
      · intro iid hi2 htr2
        rw [hi] at hi2
        injection hi2 with he
        subst he
        rw [htr] at htr2
        exact Bool.noConfusion htr2
      · intro iid hi2 _ ho2
        rw [hi] at hi2
        injection hi2 with he
        subst he
        rw [ho] at ho2
        simp at ho2

/-- Upstream for the C4 counterexample: the detail call resolves the id
`"tt1"`, the OMDB call reports failure (`Response = "False"`). -/
def upC4cx : Upstream := { upDead with
  credits := fun _ _ => some (200, []),
  detail := fun _ _ => some (200, some "tt1"),
  omdb := fun _ => some (200, { Response := "False" }) }

/-- The raw item for the C4 counterexample: catalog-native id 5. -/
def itemC4cx : Item := { id := 5 }

/-- Counterexample to C4 as stated: the enrichment call fails, the record
degrades to PrimaryOnly — but its id is the cross-reference id `"tt1"`, not
the stringified catalog-native id `"5"`. -/
theorem C4_counterexample :
    (map_to_movie upC4cx itemC4cx "movie" [] {}).map (fun r => (r.source, r.id)) =
      .ok ("TMDB", "tt1") ∧
    natToStr itemC4cx.id = "5" ∧ ("tt1" : String) ≠ "5" := by decide

/-- Upstream for the C4 witness: no cross-reference id resolves. -/
def upC4w : Upstream := { upDead with
  credits := fun _ _ => some (200, [some "A"]),
  detail := fun _ _ => some (200, none) }

/-- The item and output record of the C4 witness run. -/
def itemC4w : Item := { id := 7 }

/-- The record the C4 witness run produces. -/
def rC4w : MovieResponse :=
  { id := "7", title := "", type := .movie, actors := ["A"], source := "TMDB" }

/-- Witness for C4 (amended) at a concrete run with no resolvable id. -/
theorem C4_provenance_witness :
    rC4w.source = "TMDB" ∧ rC4w.ratings = [] ∧ rC4w.director = none ∧
    rC4w.runtime = none ∧ rC4w.plot = none ∧ rC4w.id = natToStr itemC4w.id :=
  (C4_provenance upC4w itemC4w "movie" [] {} rC4w (by decide)).2.1 none (by decide) (by decide)

/-- C5 (amended): with a successful enrichment payload the mapper copies
director/runtime/plot, builds the ratings dict from the payload's rating list,
prefers the catalog poster path over the enrichment poster, backfills the title
from enrichment only when the catalog title is empty, and backfills the year
from enrichment only when the catalog year is absent — or parsed to 0, since
the code tests the year with Python truthiness. -/
theorem C5_enrichment_merge (up : Upstream) (item : Item) (mt : String)
    (genres : List (Nat × String)) (params : MovieSearchParams) (r : MovieResponse)
    (iid : Option String) (d : OmdbPayload)
    (h : map_to_movie up item mt genres params = .ok r)
    (hi : _get_imdb_id up mt item.id = .ok iid)
    (ht : truthy iid = true)
    (ho : _fetch_omdb_data up (orEmpty iid) = .ok (some d)) :
    r.source = "Merged" ∧
    r.director = d.Director ∧ r.runtime = d.Runtime ∧ r.plot = d.Plot ∧
    r.ratings = dictOfList d.Ratings ∧
    (truthy item.poster_path = true →
      r.poster_url = some ("https://image.tmdb.org/t/p/w500" ++ orEmpty item.poster_path)) ∧
    (truthy item.poster_path = false → r.poster_url = d.Poster) ∧
    (catalogTitle item ≠ "" → r.title = catalogTitle item) ∧
    (catalogTitle item = "" → d.Title = some r.title) ∧
    (∀ y, catalogYear item = .ok (some y) → y ≠ 0 → r.year = some y) ∧
    ((catalogYear item = .ok none ∨ catalogYear item = .ok (some 0)) →
      omdbYear d = .ok r.year) := by
  rw [map_to_movie_ok_iff] at h
  obtain ⟨year, actors, imdb_id, omdb, hy, ha, hi2, ho2, hm⟩ := h
  rw [hi] at hi2
  injection hi2 with he
  subst he
  rw [ht] at ho2
  simp only [if_true] at ho2
  rw [ho] at ho2
  injection ho2 with he2
  subst he2
  obtain ⟨h1, h2, h3, h4, h5, h6, _, _, _, _, h11, h12, h13, h14⟩ :=
    mergeRecord_some_ok _ _ _ _ _ _ _ _ _ hm
  refine ⟨h1, h2, h3, h4, h5, ?_, ?_, h11, h12, ?_, ?_⟩
  · intro hpp
    rw [h6, if_pos hpp]
  · intro hpp
    rw [h6, if_neg (by simp [hpp])]
  · intro y hcy hy0
    rw [hy] at hcy
    injection hcy with he3
    exact h13 y he3 hy0
  · intro hcase
    apply h14
    rcases hcase with hc | hc <;> rw [hy] at hc
    · injection hc with he4
      exact Or.inl he4
    · injection hc with he4
      exact Or.inr he4

/-- Upstream for the C5 counterexample: enrichment succeeds with Year 1999. -/
def upC5cx : Upstream := { upDead with
  credits := fun _ _ => some (200, []),
  detail := fun _ _ => some (200, some "tt5"),
  omdb := fun _ => some (200, { Response := "True", Year := some "1999" }) }

/-- The item for the C5 counterexample: its date parses to the year 0. -/
def itemC5cx : Item := { id := 6, title := some "T", release_date := some "0-01-01" }

/-- Counterexample to C5 as stated: the catalog year is set (it parses to 0,
not to nothing), yet the merged record's year is taken from the enrichment
payload, because the code tests the year with Python truthiness and 0 is falsy. -/
theorem C5_counterexample :
    catalogYear itemC5cx = .ok (some 0) ∧
    (map_to_movie upC5cx itemC5cx "movie" [] {}).map (fun r => (r.source, r.year)) =
      .ok ("Merged", some 1999) := by decide

/-- Upstream for the C5 witness: a full successful enrichment. -/
def upC5w : Upstream := { upDead with
  credits := fun _ _ => some (200, []),
  detail := fun _ _ => some (200, some "tt9"),
  omdb := fun _ => some (200,
    { Response := "True", Director := some "D", Title := some "X",
      Ratings := [("SourceA", "9/10")] }) }

/-- The item of the C5 witness run. -/
def itemC5w : Item := { id := 9, title := some "T", release_date := some "2005-01-01" }

/-- The record the C5 witness run produces. -/
def rC5w : MovieResponse :=
  { id := "tt9", title := "T", year := some 2005, type := .movie,
    director := some "D", ratings := [("SourceA", "9/10")], source := "Merged" }

/-- Witness for C5 (amended) at a concrete successful enrichment run. -/
theorem C5_enrichment_merge_witness :
    rC5w.source = "Merged" ∧ rC5w.director = some "D" ∧
    rC5w.ratings = dictOfList [("SourceA", "9/10")] :=
  (fun hh => ⟨hh.1, hh.2.1, hh.2.2.2.2.1⟩)
    (C5_enrichment_merge upC5w itemC5w "movie" [] {} rC5w (some "tt9")
      { Response := "True", Director := some "D", Title := some "X",
        Ratings := [("SourceA", "9/10")] }
      (by decide) (by decide) (by decide) (by decide))

/-- C10: a record mapped under a query that specifies a media type carries
exactly that media type, so the Match Filter's mediaType comparison can never
be the reason such a record is excluded — any rejection comes from the genre
or actors clause. -/
theorem C10_query_type_propagates (up : Upstream) (item : Item) (mt : String)
    (genres : List (Nat × String)) (params : MovieSearchParams) (r : MovieResponse)
    (t : MediaType) (hp : params.type = some t)
    (h : map_to_movie up item mt genres params = .ok r) :
    r.type = t ∧
    (matchesQuery r params = false →
      (truthy params.genre = true ∧ ∀ g ∈ r.genres, ciEq g (orEmpty params.genre) = false) ∨
      (truthy params.actors = true ∧ ∀ a ∈ r.actors, ciInStr (orEmpty params.actors) a = false)) := by
  have htype : r.type = outType mt params := by
    rw [map_to_movie_ok_iff] at h
    obtain ⟨year, actors, imdb_id, omdb, hy, ha, hi, ho, hm⟩ := h
    cases omdb with
    | none =>
      rw [mergeRecord_none_eq] at hm
      simp only [Except.ok.injEq] at hm
      subst hm
      rfl
    | some d => exact (mergeRecord_some_ok _ _ _ _ _ _ _ _ _ hm).2.2.2.2.2.2.2.1
  have ht : r.type = t := by
    rw [htype]
    simp [outType, hp]
  refine ⟨ht, fun hfalse => ?_⟩
  rcases (matchesQuery_false_iff r params).mp hfalse with ⟨t', ht', hne⟩ | hg | ha
  · rw [hp] at ht'
    injection ht' with h1
    subst h1
    exact absurd ht hne
  · exact Or.inl hg
  · exact Or.inr ha

/-- Upstream for the C10 witness. -/
def upC10w : Upstream := { upDead with
  credits := fun _ _ => some (200, []),
  detail := fun _ _ => some (200, none) }

/-- The record the C10 witness run produces. -/
def rC10w : MovieResponse := { id := "3", title := "", type := .series, source := "TMDB" }

/-- Witness for C10: a movie-endpoint item mapped under a series query carries
the series type. -/
theorem C10_query_type_propagates_witness : rC10w.type = .series :=
  (C10_query_type_propagates upC10w { id := 3 } "movie" [] { type := some .series }
    rC10w .series rfl (by decide)).1

theorem mapAll_eq_mapM' (up : Upstream) (items : List Item) (endpoint : String)
    (genres : List (Nat × String)) (params : MovieSearchParams) :
    mapAll up items endpoint genres params =
      List.mapM' (fun item => map_to_movie up item endpoint genres params) items :=
  (List.mapM'_eq_mapM _ _).symm

theorem mapM'_ok_length {ε α β : Type} (f : α → Except ε β) :
    ∀ (l : List α) (l' : List β), List.mapM' f l = .ok l' → l'.length = l.length := by
  intro l
  induction l with
  | nil =>
    intro l' h
    simp only [List.mapM', pure, Except.pure, Except.ok.injEq] at h
    rw [← h]
    rfl
  | cons a t ih =>
    intro l' h
    simp only [List.mapM'] at h
    rw [bind_ok_iff] at h
    obtain ⟨b, hb, h⟩ := h
    rw [bind_ok_iff] at h
    obtain ⟨bs, hbs, h⟩ := h
    simp only [pure, Except.pure, Except.ok.injEq] at h
    rw [← h]
    simp [ih bs hbs]

theorem mapAll_ok_length (up : Upstream) (items : List Item) (endpoint : String)
    (genres : List (Nat × String)) (params : MovieSearchParams) (l : List MovieResponse)
    (h : mapAll up items endpoint genres params = .ok l) : l.length = items.length := by
  rw [mapAll_eq_mapM'] at h
  exact mapM'_ok_length _ items l h

/-- C1: with a truthy title and no filter fields the router selects the
title-only strategy, whose successful output is the full concatenation of the
mapped tv and movie search results — every fetched record is kept, so the
Match Filter is never applied; with any of genre/actors/mediaType set alongside
the title (mediaType alone counts), the router selects title-with-filters. -/
theorem C1_router (up : Upstream) (params : MovieSearchParams) (st : St)
    (ht : truthy params.title = true) :
    ((truthy params.genre = false ∧ truthy params.actors = false ∧ params.type = none) →
      search_tmdb up params st =
        _search_by_title_only up params (params.type == some MediaType.series) st ∧
      (∀ res st', search_tmdb up params st = .ok (res, st') →
        ∃ tvItems tvEp gTv st1 tvMapped movItems movEp gMov st2 movMapped,
          get_search_results up params.title true = .ok (tvItems, tvEp) ∧
          fetch_genres up true st = .ok (gTv, st1) ∧
          mapAll up tvItems tvEp gTv params = .ok tvMapped ∧
          get_search_results up params.title false = .ok (movItems, movEp) ∧
          fetch_genres up false st1 = .ok (gMov, st2) ∧
          mapAll up movItems movEp gMov params = .ok movMapped ∧
          res = tvMapped ++ movMapped ∧ st' = st2 ∧
          res.length = tvItems.length + movItems.length)) ∧
    ((truthy params.genre = true ∨ truthy params.actors = true ∨ params.type ≠ none) →
      search_tmdb up params st =
        _search_by_title_with_filters up params (params.type == some MediaType.series) st) := by
  constructor
  · rintro ⟨hg, ha, hty⟩
    have hroute : search_tmdb up params st =
        _search_by_title_only up params (params.type == some MediaType.series) st := by
      unfold search_tmdb
      simp [ht, hg, ha, hty]
    refine ⟨hroute, fun res st' hok => ?_⟩
    rw [hroute] at hok
    unfold _search_by_title_only at hok
    simp only [hty, Option.isNone_none, if_true] at hok
    simp only [List.foldlM_cons, List.foldlM_nil] at hok
    simp only [bind_ok_iff] at hok
    obtain ⟨b1, hstep1, b2, hstep2, hok⟩ := hok
    simp only [pure, Except.pure, Except.ok.injEq] at hok
    obtain ⟨⟨r1, e1⟩, hg1, ⟨g1, s1⟩, hf1, m1, hm1, hp1⟩ := hstep1
    simp only [pure, Except.pure, Except.ok.injEq, List.nil_append] at hp1
    subst hp1
    obtain ⟨⟨r2, e2⟩, hg2, ⟨g2, s2⟩, hf2, m2, hm2, hp2⟩ := hstep2
    simp only [pure, Except.pure, Except.ok.injEq] at hp2
    subst hp2
    injection hok with hres hst
    subst hres
    subst hst
    have l1 := mapAll_ok_length up r1 e1 g1 params m1 hm1
    have l2 := mapAll_ok_length up r2 e2 g2 params m2 hm2
    exact ⟨r1, e1, g1, s1, m1, r2, e2, g2, s2, m2, hg1, hf1, hm1, hg2, hf2, hm2,
      rfl, rfl, by simp [l1, l2]⟩
  · intro hf
    unfold search_tmdb
    have hfil : (truthy params.genre || truthy params.actors || params.type.isSome) = true := by
      rcases hf with h | h | h
      · simp [h]
      · simp [h]
      · simp [Option.isSome_iff_ne_none.mpr h]
    simp [ht, hfil]


theorem charListLt_asymm : ∀ (a b : List Char), charListLt a b = true → charListLt b a = false := by
  intro a
  induction a with
  | nil =>
    intro b h
    cases b with
    | nil => simp [charListLt] at h
    | cons y ys => rfl
  | cons x xs ih =>
    intro b h
    cases b with
    | nil => simp [charListLt] at h
    | cons y ys =>
      simp only [charListLt] at h ⊢
      by_cases hxy : x.toNat < y.toNat
      · have hyx : ¬ y.toNat < x.toNat := by omega
        simp [hxy, hyx]
      · by_cases hyx : y.toNat < x.toNat
        · simp [hxy, hyx] at h
        · simp only [hxy, hyx, if_false] at h
          simp [hxy, hyx, ih ys h]

theorem charListLt_trans : ∀ (a b c : List Char), charListLt a b = true →
    charListLt b c = true → charListLt a c = true := by
  intro a
  induction a with
  | nil =>
    intro b c hab hbc
    cases c with
    | nil =>
      cases b with
      | nil => simpa using hab
      | cons y ys => simp [charListLt] at hbc
    | cons z zs => rfl
  | cons x xs ih =>
    intro b c hab hbc
    cases b with
    | nil => simp [charListLt] at hab
    | cons y ys =>
      cases c with
      | nil => simp [charListLt] at hbc
      | cons z zs =>
        simp only [charListLt] at hab hbc ⊢
        by_cases hxy : x.toNat < y.toNat <;> by_cases hyz : y.toNat < z.toNat
        · simp [show x.toNat < z.toNat by omega]
        · by_cases hzy : z.toNat < y.toNat
          · simp [hyz, hzy] at hbc
          · simp [show x.toNat < z.toNat by omega]
        · by_cases hyx : y.toNat < x.toNat
          · simp [hxy, hyx] at hab
          · simp [show x.toNat < z.toNat by omega]
        · by_cases hyx : y.toNat < x.toNat
          · simp [hxy, hyx] at hab
          · by_cases hzy : z.toNat < y.toNat
            · simp [hyz, hzy] at hbc
            · simp only [hxy, hyx, if_false] at hab
              simp only [hyz, hzy, if_false] at hbc
              have hxz : ¬ x.toNat < z.toNat := by omega
              have hzx : ¬ z.toNat < x.toNat := by omega
              simp [hxz, hzx, ih ys zs hab hbc]

/-- The non-descending-by-title relation the popular fallback sorts by. -/
def titleLe (a b : MovieResponse) : Prop := strLt b.title a.title = false

theorem insertByTitle_perm (m : MovieResponse) : ∀ (l : List MovieResponse),
    List.Perm (insertByTitle m l) (m :: l) := by
  intro l
  induction l with
  | nil => exact List.Perm.refl _
  | cons h t ih =>
    unfold insertByTitle
    by_cases hc : strLt m.title h.title = true
    · simp [hc]
    · have hc' : strLt m.title h.title = false := by simpa using hc
      simp only [hc', Bool.false_eq_true, if_false]
      exact (List.Perm.cons h ih).trans (List.Perm.swap m h t)

theorem insertByTitle_sorted (m : MovieResponse) : ∀ (l : List MovieResponse),
    List.Pairwise titleLe l → List.Pairwise titleLe (insertByTitle m l) := by
  intro l
  induction l with
  | nil => intro _; simp [insertByTitle]
  | cons h t ih =>
    intro hp
    rw [List.pairwise_cons] at hp
    obtain ⟨hh, hpt⟩ := hp
    unfold insertByTitle
    by_cases hc : strLt m.title h.title = true
    · simp only [hc, if_true]
      rw [List.pairwise_cons]
      refine ⟨?_, List.pairwise_cons.mpr ⟨hh, hpt⟩⟩
      intro x hx
      rcases List.mem_cons.mp hx with rfl | hxt
      · exact charListLt_asymm _ _ hc
      · cases hb : strLt x.title m.title with
        | false => exact hb
        | true =>
          have hxh := charListLt_trans _ _ _ hb hc
          have hhx := hh x hxt
          unfold titleLe strLt at hhx
          rw [hhx] at hxh
          exact Bool.noConfusion hxh
    · have hc' : strLt m.title h.title = false := by simpa using hc
      simp only [hc', Bool.false_eq_true, if_false]
      rw [List.pairwise_cons]
      constructor
      · intro y hy
        have hy2 : y ∈ m :: t := (insertByTitle_perm m t).mem_iff.mp hy
        rcases List.mem_cons.mp hy2 with rfl | hyt
        · exact hc'
        · exact hh y hyt
      · exact ih hpt

theorem sortByTitle_go_perm : ∀ (l acc : List MovieResponse),
    List.Perm (l.foldl (fun a x => insertByTitle x a) acc) (acc ++ l) := by
  intro l
  induction l with
  | nil => intro acc; simp
  | cons x t ih =>
    intro acc
    simp only [List.foldl_cons]
    refine ((ih _).trans ?_)
    refine ((insertByTitle_perm x acc).append_right t).trans ?_
    exact (List.perm_middle).symm

theorem sortByTitle_perm (l : List MovieResponse) : List.Perm (sortByTitle l) l := by
  simpa [sortByTitle] using sortByTitle_go_perm l []

theorem sortByTitle_go_sorted : ∀ (l acc : List MovieResponse),
    List.Pairwise titleLe acc →
    List.Pairwise titleLe (l.foldl (fun a x => insertByTitle x a) acc) := by
  intro l
  induction l with
  | nil => intro acc h; simpa using h
  | cons x t ih =>
    intro acc h
    simp only [List.foldl_cons]
    exact ih _ (insertByTitle_sorted x acc h)

theorem sortByTitle_sorted (l : List MovieResponse) :
    List.Pairwise titleLe (sortByTitle l) :=
  sortByTitle_go_sorted l [] (by simp)


/-- C3: a successful popular-fallback run returns at most 20 records; when the
query title is falsy the output is (a 20-prefix of) a permutation of the
combined mapped list that is sorted ascending by title — ordinal and
case-sensitive; when the title is truthy the sort is skipped and the output is
the plain 20-prefix of the mapped list in source order (all movie items, then
all series items). -/
theorem C3_popular_fallback (up : Upstream) (params : MovieSearchParams) (st : St)
    (res : List MovieResponse) (st' : St)
    (h : _get_popular_fallback up params st = .ok (res, st')) :
    res.length ≤ 20 ∧
    (truthy params.title = false → List.Pairwise titleLe res) ∧
    ∃ moviePop tvPop st1 st2 gm st3 gt mapped,
      get_popular up false st = .ok (moviePop, st1) ∧
      get_popular up true st1 = .ok (tvPop, st2) ∧
      fetch_genres up false st2 = .ok (gm, st3) ∧
      fetch_genres up true st3 = .ok (gt, st') ∧
      (moviePop.map (fun i => (i, "movie")) ++ tvPop.map (fun i => (i, "tv"))).mapM
        (fun p => map_to_movie up p.1 p.2 (if p.2 == "tv" then gt else gm) params) =
        .ok mapped ∧
      (truthy params.title = false →
        ∃ sorted, List.Perm sorted mapped ∧ List.Pairwise titleLe sorted ∧
          res = sorted.take 20) ∧
      (truthy params.title = true → res = mapped.take 20) := by
  unfold _get_popular_fallback at h
  simp only [bind_ok_iff] at h
  obtain ⟨⟨moviePop, st1⟩, h1, ⟨tvPop, st2⟩, h2, ⟨gm, st3⟩, h3, ⟨gt, st4⟩, h4,
    mapped, h5, hp⟩ := h
  simp only [pure, Except.pure, Except.ok.injEq] at hp
  injection hp with hres hst
  subst hst
  refine ⟨?_, ?_, moviePop, tvPop, st1, st2, gm, st3, gt, mapped,
    h1, h2, h3, h4, h5, ?_, ?_⟩
  · rw [← hres]
    exact List.length_take_le _ _
  · intro httf
    rw [← hres]
    simp only [httf, Bool.not_false, if_true]
    exact (sortByTitle_sorted mapped).sublist (List.take_sublist _ _)
  · intro httf
    refine ⟨sortByTitle mapped, sortByTitle_perm mapped, sortByTitle_sorted mapped, ?_⟩
    rw [← hres]
    simp [httf]
  · intro httt
    rw [← hres]
    simp [httt]


/-- Parameters for the C1 witness: a title and nothing else. -/
def pC1w : MovieSearchParams := { title := some "zzz" }

/-- Witness for C1: the router sends a title-only query to the title-only strategy. -/
theorem C1_router_witness :
    search_tmdb upC9 pC1w {} = _search_by_title_only upC9 pC1w false {} :=
  ((C1_router upC9 pC1w {} (by decide)).1 ⟨by decide, by decide, rfl⟩).1

/-- Upstream for the C3 witness: live popularity, taxonomy, credits and detail. -/
def upC3w : Upstream := { upDead with
  popular := fun isS => some (200,
    if isS then [{ id := 200, name := some "Beta" }] else [{ id := 100, title := some "Alpha" }]),
  genreList := fun _ => some (200, []),
  credits := fun _ _ => some (200, []),
  detail := fun _ _ => some (200, none) }

/-- The record list the C3 witness run returns. -/
def resC3w : List MovieResponse :=
  [{ id := "100", title := "Alpha", type := .movie, source := "TMDB" },
   { id := "200", title := "Beta", type := .series, source := "TMDB" }]

/-- The state after the C3 witness run. -/
def stC3w : St :=
  ⟨[⟨"genres:tv", .genres [], none⟩, ⟨"genres:movie", .genres [], none⟩,
    ⟨"popular:tv", .popular [{ id := 200, name := some "Beta" }], some 600⟩,
    ⟨"popular:movie", .popular [{ id := 100, title := some "Alpha" }], some 600⟩], 2⟩

/-- Witness for C3 at a concrete fallback run with an empty query. -/
theorem C3_popular_fallback_witness :
    resC3w.length ≤ 20 ∧
    (truthy ({} : MovieSearchParams).title = false → List.Pairwise titleLe resC3w) :=
  (fun hh => ⟨hh.1, hh.2.1⟩) (C3_popular_fallback upC3w {} {} resC3w stC3w (by decide))

/-- Outcome of the genre-resolution step of a discovery path: either the genre
is falsy and no filter is produced, or the taxonomy was fetched and the genre
name resolved (to an id rendered as a string) or not (`none`). -/
def genreStepOutcome (up : Upstream) (is_series : Bool) (genre : Option String)
    (st : St) (gidOpt : Option String) (st1 : St) : Prop :=
  (truthy genre = false ∧ gidOpt = none ∧ st1 = st) ∨
  (truthy genre = true ∧ ∃ gm, fetch_genres up is_series st = .ok (gm, st1) ∧
    gidOpt = (resolveGenreId gm (orEmpty genre)).map natToStr)

/-- Outcome of the cast-resolution step of the movie discovery path: either the
actor name is falsy and no filter is produced, or the person search succeeded
and the first match (if any) supplies the cast filter. -/
def castStepOutcome (up : Upstream) (actors : Option String)
    (castOpt : Option String) : Prop :=
  (truthy actors = false ∧ castOpt = none) ∨
  (truthy actors = true ∧ ∃ s1 people,
    up.personSearch (orEmpty actors) = some (s1, people) ∧ 200 ≤ s1 ∧ s1 ≤ 299 ∧
    castOpt = (match people with
      | [] => (none : Option String)
      | p :: _ => some (pyStrOfOptNat p.id)))

theorem genreStep_eq (up : Upstream) (is_series : Bool) (genre : Option String)
    (st : St) (gidOpt : Option String) (st1 : St)
    (hgen : genreStepOutcome up is_series genre st gidOpt st1) :
    _genreFilter up is_series genre st = .ok (gidOpt, st1) := by
  unfold _genreFilter
  rcases hgen with ⟨hgf, hgid, hst⟩ | ⟨hgt, gm, hfg, hgid⟩
  · subst hgid
    subst hst
    simp [hgf, pure, Except.pure]
  · subst hgid
    simp only [hgt, if_true]
    simp only [hfg, bind, Except.bind, pure, Except.pure]

theorem castStep_eq (up : Upstream) (actors : Option String) (castOpt : Option String)
    (hact : castStepOutcome up actors castOpt) :
    _movieCastFilter up actors = .ok castOpt := by
  unfold _movieCastFilter
  rcases hact with ⟨haf, hcast⟩ | ⟨hat, s1, people, hps, hs1a, hs1b, hcast⟩
  · subst hcast
    simp [haf, pure, Except.pure]
  · have hr1 : raiseForStatus s1 = .ok () := by
      unfold raiseForStatus
      simp [hs1a, hs1b]
    simp only [hat, if_true, hps, hr1]
    simp only [bind, Except.bind, pure, Except.pure]
    cases people with
    | nil =>
      subst hcast
      rfl
    | cons p ps =>
      subst hcast
      rfl

theorem discover_movie_after_steps (up : Upstream) (genre actors : Option String)
    (st : St) (gidOpt castOpt : Option String) (st1 : St)
    (out : Except Err ((List Item × String) × St))
    (hgen : genreStepOutcome up false genre st gidOpt st1)
    (hact : castStepOutcome up actors castOpt)
    (hout : (match up.discover "movie" ⟨gidOpt, castOpt⟩ with
      | none => Except.error Err.network
      | some (s, results) => do
        let _ ← raiseForStatus s
        pure ((results, "movie"), st1)) = out) :
    _discover_movie_by_filters up genre actors st = out := by
  have hgf := genreStep_eq up false genre st gidOpt st1 hgen
  have hcf := castStep_eq up actors castOpt hact
  unfold _discover_movie_by_filters
  simp only [hgf, hcf, bind, Except.bind]
  simp only [bind, Except.bind] at hout
  exact hout

theorem discover_movie_ok (up : Upstream) (genre actors : Option String) (st : St)
    (gidOpt castOpt : Option String) (st1 : St) (s : Nat) (items : List Item)
    (hgen : genreStepOutcome up false genre st gidOpt st1)
    (hact : castStepOutcome up actors castOpt)
    (hdisc : up.discover "movie" ⟨gidOpt, castOpt⟩ = some (s, items))
    (hsa : 200 ≤ s) (hsb : s ≤ 299) :
    _discover_movie_by_filters up genre actors st = .ok ((items, "movie"), st1) := by
  refine discover_movie_after_steps up genre actors st gidOpt castOpt st1 _ hgen hact ?_
  have hr : raiseForStatus s = .ok () := by
    unfold raiseForStatus
    simp [hsa, hsb]
  rw [hdisc]
  simp only [hr, bind, Except.bind, pure, Except.pure]

theorem discover_movie_net (up : Upstream) (genre actors : Option String) (st : St)
    (gidOpt castOpt : Option String) (st1 : St)
    (hgen : genreStepOutcome up false genre st gidOpt st1)
    (hact : castStepOutcome up actors castOpt)
    (hdisc : up.discover "movie" ⟨gidOpt, castOpt⟩ = none) :
    _discover_movie_by_filters up genre actors st = .error .network := by
  refine discover_movie_after_steps up genre actors st gidOpt castOpt st1 _ hgen hact ?_
  rw [hdisc]

theorem discover_movie_status (up : Upstream) (genre actors : Option String) (st : St)
    (gidOpt castOpt : Option String) (st1 : St) (s : Nat) (items : List Item)
    (hgen : genreStepOutcome up false genre st gidOpt st1)
    (hact : castStepOutcome up actors castOpt)
    (hdisc : up.discover "movie" ⟨gidOpt, castOpt⟩ = some (s, items))
    (hns : ¬(200 ≤ s ∧ s ≤ 299)) :
    _discover_movie_by_filters up genre actors st = .error (.httpStatus s) := by
  refine discover_movie_after_steps up genre actors st gidOpt castOpt st1 _ hgen hact ?_
  have hr : raiseForStatus s = .error (.httpStatus s) := by
    unfold raiseForStatus
    simp [if_neg hns]
  rw [hdisc]
  simp only [hr, bind, Except.bind]

theorem discover_tv_after_steps (up : Upstream) (genre actors : Option String)
    (st : St) (gidOpt : Option String) (st1 : St)
    (out : Except Err ((List Item × String) × St))
    (haf : truthy actors = false)
    (hgen : genreStepOutcome up true genre st gidOpt st1)
    (hout : (match up.discover "tv" ⟨gidOpt, none⟩ with
      | none => Except.error Err.network
      | some (s, results) => do
        let _ ← raiseForStatus s
        pure ((results, "tv"), st1)) = out) :
    _discover_tv_by_filters up genre actors st = out := by
  have hgf := genreStep_eq up true genre st gidOpt st1 hgen
  unfold _discover_tv_by_filters
  simp only [haf, Bool.false_eq_true, if_false]
  simp only [hgf, bind, Except.bind]
  simp only [bind, Except.bind] at hout
  exact hout

theorem discover_tv_net (up : Upstream) (genre actors : Option String) (st : St)
    (gidOpt : Option String) (st1 : St)
    (haf : truthy actors = false)
    (hgen : genreStepOutcome up true genre st gidOpt st1)
    (hdisc : up.discover "tv" ⟨gidOpt, none⟩ = none) :
    _discover_tv_by_filters up genre actors st = .error .network := by
  refine discover_tv_after_steps up genre actors st gidOpt st1 _ haf hgen ?_
  rw [hdisc]

theorem discover_tv_status (up : Upstream) (genre actors : Option String) (st : St)
    (gidOpt : Option String) (st1 : St) (s : Nat) (items : List Item)
    (haf : truthy actors = false)
    (hgen : genreStepOutcome up true genre st gidOpt st1)
    (hdisc : up.discover "tv" ⟨gidOpt, none⟩ = some (s, items))
    (hns : ¬(200 ≤ s ∧ s ≤ 299)) :
    _discover_tv_by_filters up genre actors st = .error (.httpStatus s) := by
  refine discover_tv_after_steps up genre actors st gidOpt st1 _ haf hgen ?_
  have hr : raiseForStatus s = .error (.httpStatus s) := by
    unfold raiseForStatus
    simp [if_neg hns]
  rw [hdisc]
  simp only [hr, bind, Except.bind]

theorem router_eq_title_only (up : Upstream) (params : MovieSearchParams) (st : St)
    (ht : truthy params.title = true) (hg : truthy params.genre = false)
    (ha : truthy params.actors = false) (hty : params.type = none) :
    search_tmdb up params st =
      _search_by_title_only up params (params.type == some MediaType.series) st := by
  unfold search_tmdb
  simp [ht, hg, ha, hty]

theorem router_eq_with_filters (up : Upstream) (params : MovieSearchParams) (st : St)
    (ht : truthy params.title = true)
    (hfil : (truthy params.genre || truthy params.actors || params.type.isSome) = true) :
    search_tmdb up params st =
      _search_by_title_with_filters up params (params.type == some MediaType.series) st := by
  unfold search_tmdb
  simp [ht, hfil]

theorem router_eq_filters_only (up : Upstream) (params : MovieSearchParams) (st : St)
    (ht : truthy params.title = false)
    (hfil : (truthy params.genre || truthy params.actors || params.type.isSome) = true) :
    search_tmdb up params st =
      _search_by_filters_only up params (params.type == some MediaType.series) st := by
  unfold search_tmdb
  simp [ht, hfil]

theorem router_eq_fallback (up : Upstream) (params : MovieSearchParams) (st : St)
    (ht : truthy params.title = false) (hg : truthy params.genre = false)
    (ha : truthy params.actors = false) (hty : params.type = none) :
    search_tmdb up params st = _get_popular_fallback up params st := by
  unfold search_tmdb
  simp [ht, hg, ha, hty]

theorem mapM'_ok_mem {ε α β : Type} (f : α → Except ε β) :
    ∀ (l : List α) (out : List β), List.mapM' f l = .ok out →
      ∀ x ∈ l, ∃ b, f x = .ok b := by
  intro l
  induction l with
  | nil =>
    intro out _ x hx
    cases hx
  | cons a t ih =>
    intro out h x hx
    simp only [List.mapM'] at h
    rw [bind_ok_iff] at h
    obtain ⟨b, hb, h⟩ := h
    rw [bind_ok_iff] at h
    obtain ⟨bs, hbs, _⟩ := h
    rcases List.mem_cons.mp hx with rfl | hxt
    · exact ⟨b, hb⟩
    · exact ih bs hbs x hxt

/-- C7: an unresolvable genre name or an unmatched actor name never fails a
filter-discovery invocation.  On the movie path the discovery call is still
issued, with the unresolved filter simply absent from the query; on the series
path an unmatched person yields the empty list (not an error) and an
unresolvable genre leaves the person's credit list unfiltered.  The final
conjunct states the movie path in full generality: for every combination of
filter-step outcomes — genre falsy, resolved, or unresolvable, actor falsy,
matched, or unmatched — whatever subset of filters resolved is passed to the
discovery call and a successful discovery response completes the invocation. -/
theorem C7_unresolvable_filters (up : Upstream) (genre actors : Option String) (st : St) :
    (∀ gm st1 s items,
      truthy genre = true → fetch_genres up false st = .ok (gm, st1) →
      resolveGenreId gm (orEmpty genre) = none →
      truthy actors = false →
      up.discover "movie" ⟨none, none⟩ = some (s, items) → 200 ≤ s → s ≤ 299 →
      _discover_movie_by_filters up genre actors st = .ok ((items, "movie"), st1)) ∧
    (∀ s1 s items,
      truthy genre = false → truthy actors = true →
      up.personSearch (orEmpty actors) = some (s1, []) → 200 ≤ s1 → s1 ≤ 299 →
      up.discover "movie" ⟨none, none⟩ = some (s, items) → 200 ≤ s → s ≤ 299 →
      _discover_movie_by_filters up genre actors st = .ok ((items, "movie"), st)) ∧
    (∀ s1,
      truthy actors = true →
      up.personSearch (orEmpty actors) = some (s1, []) → 200 ≤ s1 → s1 ≤ 299 →
      _discover_tv_by_filters up genre actors st = .ok (([], "tv"), st)) ∧
    (∀ p ps s1 s2 credits gm st1,
      truthy actors = true →
      up.personSearch (orEmpty actors) = some (s1, p :: ps) → 200 ≤ s1 → s1 ≤ 299 →
      up.tvCredits p.id = some (s2, credits) → 200 ≤ s2 → s2 ≤ 299 →
      truthy genre = true →
      fetch_genres up true st = .ok (gm, st1) →
      resolveGenreId gm (orEmpty genre) = none →
      _discover_tv_by_filters up genre actors st = .ok ((credits, "tv"), st1)) ∧
    (∀ gm st1 s items,
      truthy actors = false → truthy genre = true →
      fetch_genres up true st = .ok (gm, st1) →
      resolveGenreId gm (orEmpty genre) = none →
      up.discover "tv" ⟨none, none⟩ = some (s, items) → 200 ≤ s → s ≤ 299 →
      _discover_tv_by_filters up genre actors st = .ok ((items, "tv"), st1)) ∧
    (∀ gidOpt castOpt st1 s items,
      genreStepOutcome up false genre st gidOpt st1 →
      castStepOutcome up actors castOpt →
      up.discover "movie" ⟨gidOpt, castOpt⟩ = some (s, items) → 200 ≤ s → s ≤ 299 →
      _discover_movie_by_filters up genre actors st = .ok ((items, "movie"), st1)) := by
  refine ⟨?_, ?_, ?_, ?_, ?_, ?_⟩
  · intro gm st1 s items hgt hfg hres hat hdisc hsa hsb
    have hr : raiseForStatus s = .ok () := by
      unfold raiseForStatus
      simp [hsa, hsb]
    have hgf : _genreFilter up false genre st = .ok (none, st1) := by
      unfold _genreFilter
      simp only [hgt, if_true]
      simp only [hfg, bind, Except.bind, pure, Except.pure]
      simp [hres]
    have hcf : _movieCastFilter up actors = .ok none := by
      unfold _movieCastFilter
      simp [hat, pure, Except.pure]
    unfold _discover_movie_by_filters
    simp only [hgf, hcf, bind, Except.bind]
    simp only [hdisc, hr, bind, Except.bind, pure, Except.pure]
  · intro s1 s items hgf hat hps hs1a hs1b hdisc hsa hsb
    have hr1 : raiseForStatus s1 = .ok () := by
      unfold raiseForStatus
      simp [hs1a, hs1b]
    have hr : raiseForStatus s = .ok () := by
      unfold raiseForStatus
      simp [hsa, hsb]
    have hgff : _genreFilter up false genre st = .ok (none, st) := by
      unfold _genreFilter
      simp [hgf, pure, Except.pure]
    have hcf : _movieCastFilter up actors = .ok none := by
      unfold _movieCastFilter
      simp only [hat, if_true, hps, hr1]
      simp only [bind, Except.bind, pure, Except.pure]
    unfold _discover_movie_by_filters
    simp only [hgff, hcf, bind, Except.bind]
    simp only [hdisc, hr, bind, Except.bind, pure, Except.pure]
  · intro s1 hat hps hs1a hs1b
    have hr1 : raiseForStatus s1 = .ok () := by
      unfold raiseForStatus
      simp [hs1a, hs1b]
    unfold _discover_tv_by_filters
    simp only [hat, if_true, hps, hr1]
    simp only [bind, Except.bind, pure, Except.pure]
  · intro p ps s1 s2 credits gm st1 hat hps hs1a hs1b htc hs2a hs2b hgt hfg hres
    have hr1 : raiseForStatus s1 = .ok () := by
      unfold raiseForStatus
      simp [hs1a, hs1b]
    have hr2 : raiseForStatus s2 = .ok () := by
      unfold raiseForStatus
      simp [hs2a, hs2b]
    unfold _discover_tv_by_filters
    simp only [hat, if_true, hps, hr1, htc, hr2, hgt, hfg]
    simp only [bind, Except.bind, pure, Except.pure]
    rw [hres]
  · intro gm st1 s items hat hgt hfg hres hdisc hsa hsb
    have hr : raiseForStatus s = .ok () := by
      unfold raiseForStatus
      simp [hsa, hsb]
    have hgf : _genreFilter up true genre st = .ok (none, st1) := by
      unfold _genreFilter
      simp only [hgt, if_true]
      simp only [hfg, bind, Except.bind, pure, Except.pure]
      simp [hres]
    unfold _discover_tv_by_filters
    simp only [hat, Bool.false_eq_true, if_false]
    simp only [hgf, bind, Except.bind]
    simp only [hdisc, hr, bind, Except.bind, pure, Except.pure]
  · intro gidOpt castOpt st1 s items hgen hact hdisc hsa hsb
    exact discover_movie_ok up genre actors st gidOpt castOpt st1 s items hgen hact hdisc hsa hsb

/-- Witness upstream for C7: taxonomy lacking the requested genre, live discovery. -/
def upC7w : Upstream := { upDead with
  genreList := fun _ => some (200, [(9, "Drama")]),
  discover := fun _ _ => some (200, [{ id := 50 }]) }

/-- State after the C7 witness taxonomy fetch. -/
def stC7w : St := ⟨[⟨"genres:movie", .genres [(9, "Drama")], none⟩], 1⟩

/-- Witness for C7: an unresolvable genre name still completes discovery with no
genre filter applied. -/
theorem C7_unresolvable_filters_witness :
    _discover_movie_by_filters upC7w (some "romance") none {} =
      .ok (([{ id := 50 }], "movie"), stC7w) :=
  (C7_unresolvable_filters upC7w (some "romance") none {}).1 [(9, "Drama")] stC7w 200
    [{ id := 50 }] (by decide) (by decide) (by decide) (by decide) (by decide)
    (by decide) (by decide)

/-- C6 (amended): a network error on any required catalog call — title search,
taxonomy, popularity, credits, per-item detail, and both discovery variants —
propagates as an error, and a non-2xx status propagates from the calls guarded
by `raise_for_status` (search/taxonomy/popularity/credits/discover); the
per-item detail call checks `status == 200` itself and swallows non-200
statuses, degrading to no cross-reference id and a PrimaryOnly record instead
of failing.  Call-level errors are fatal to the whole request: the mapper
propagates credits and detail errors, a mapped list exists only if every item
mapped, and on every router path the first failing step makes `search_tmdb`
error, which the inbound boundary surfaces as a single 502. -/
theorem C6_upstream_failures (up : Upstream) :
    (∀ t b, up.search t b = none → get_search_results up t b = .error .network) ∧
    (∀ t b s r, up.search t b = some (s, r) → ¬(200 ≤ s ∧ s ≤ 299) →
      get_search_results up t b = .error (.httpStatus s)) ∧
    (∀ b st, cacheGet st.cache ("genres:" ++ endpointName b) = none →
      up.genreList b = none → fetch_genres up b st = .error .network) ∧
    (∀ b st s gl, cacheGet st.cache ("genres:" ++ endpointName b) = none →
      up.genreList b = some (s, gl) → ¬(200 ≤ s ∧ s ≤ 299) →
      fetch_genres up b st = .error (.httpStatus s)) ∧
    (∀ b st, cacheGet st.cache ("popular:" ++ endpointName b) = none →
      up.popular b = none → get_popular up b st = .error .network) ∧
    (∀ b st s its, cacheGet st.cache ("popular:" ++ endpointName b) = none →
      up.popular b = some (s, its) → ¬(200 ≤ s ∧ s ≤ 299) →
      get_popular up b st = .error (.httpStatus s)) ∧
    (∀ mt id, up.credits mt id = none → _fetch_credits up mt id = .error .network) ∧
    (∀ mt id s c, up.credits mt id = some (s, c) → ¬(200 ≤ s ∧ s ≤ 299) →
      _fetch_credits up mt id = .error (.httpStatus s)) ∧
    (∀ mt id, up.detail mt id = none → _get_imdb_id up mt id = .error .network) ∧
    (∀ mt id s b, up.detail mt id = some (s, b) → s ≠ 200 →
      _get_imdb_id up mt id = .ok none) ∧
    (∀ genre actors st gidOpt castOpt st1,
      genreStepOutcome up false genre st gidOpt st1 →
      castStepOutcome up actors castOpt →
      up.discover "movie" ⟨gidOpt, castOpt⟩ = none →
      _discover_movie_by_filters up genre actors st = .error .network) ∧
    (∀ genre actors st gidOpt castOpt st1 s its,
      genreStepOutcome up false genre st gidOpt st1 →
      castStepOutcome up actors castOpt →
      up.discover "movie" ⟨gidOpt, castOpt⟩ = some (s, its) → ¬(200 ≤ s ∧ s ≤ 299) →
      _discover_movie_by_filters up genre actors st = .error (.httpStatus s)) ∧
    (∀ genre actors st gidOpt st1, truthy actors = false →
      genreStepOutcome up true genre st gidOpt st1 →
      up.discover "tv" ⟨gidOpt, none⟩ = none →
      _discover_tv_by_filters up genre actors st = .error .network) ∧
    (∀ genre actors st gidOpt st1 s its, truthy actors = false →
      genreStepOutcome up true genre st gidOpt st1 →
      up.discover "tv" ⟨gidOpt, none⟩ = some (s, its) → ¬(200 ≤ s ∧ s ≤ 299) →
      _discover_tv_by_filters up genre actors st = .error (.httpStatus s)) ∧
    (∀ item mt genres params yr e, catalogYear item = .ok yr →
      _fetch_credits up mt item.id = .error e →
      map_to_movie up item mt genres params = .error e) ∧
    (∀ item mt genres params yr acts e, catalogYear item = .ok yr →
      _fetch_credits up mt item.id = .ok acts →
      _get_imdb_id up mt item.id = .error e →
      map_to_movie up item mt genres params = .error e) ∧
    (∀ item mt genres params yr acts s b, catalogYear item = .ok yr →
      _fetch_credits up mt item.id = .ok acts →
      up.detail mt item.id = some (s, b) → s ≠ 200 →
      ∃ r, map_to_movie up item mt genres params = .ok r ∧ r.source = "TMDB") ∧
    (∀ items ep genres params out, mapAll up items ep genres params = .ok out →
      ∀ item ∈ items, ∃ r, map_to_movie up item ep genres params = .ok r) ∧
    (∀ params st e, truthy params.title = true → truthy params.genre = false →
      truthy params.actors = false → params.type = none →
      get_search_results up params.title true = .error e →
      search_tmdb up params st = .error e) ∧
    (∀ params st e data ep, truthy params.title = true → truthy params.genre = false →
      truthy params.actors = false → params.type = none →
      get_search_results up params.title true = .ok (data, ep) →
      fetch_genres up true st = .error e →
      search_tmdb up params st = .error e) ∧
    (∀ params st e data ep gm st1, truthy params.title = true →
      truthy params.genre = false → truthy params.actors = false → params.type = none →
      get_search_results up params.title true = .ok (data, ep) →
      fetch_genres up true st = .ok (gm, st1) →
      mapAll up data ep gm params = .error e →
      search_tmdb up params st = .error e) ∧
    (∀ params st e data ep gm st1 mapped, truthy params.title = true →
      truthy params.genre = false → truthy params.actors = false → params.type = none →
      get_search_results up params.title true = .ok (data, ep) →
      fetch_genres up true st = .ok (gm, st1) →
      mapAll up data ep gm params = .ok mapped →
      get_search_results up params.title false = .error e →
      search_tmdb up params st = .error e) ∧
    (∀ params st e, truthy params.title = false → truthy params.genre = false →
      truthy params.actors = false → params.type = none →
      get_popular up false st = .error e →
      search_tmdb up params st = .error e) ∧
    (∀ params st e mp st1, truthy params.title = false → truthy params.genre = false →
      truthy params.actors = false → params.type = none →
      get_popular up false st = .ok (mp, st1) →
      get_popular up true st1 = .error e →
      search_tmdb up params st = .error e) ∧
    (∀ params st e, truthy params.title = false →
      (truthy params.genre || truthy params.actors || params.type.isSome) = true →
      discover_by_filters up params.genre params.actors
        (params.type == some MediaType.series) st = .error e →
      search_tmdb up params st = .error e) ∧
    (∀ params st e, truthy params.title = true →
      (truthy params.genre || truthy params.actors || params.type.isSome) = true →
      (truthy params.actors && (params.type == some MediaType.series)) = true →
      discover_by_filters up params.genre params.actors
        (params.type == some MediaType.series) st = .error e →
      search_tmdb up params st = .error e) ∧
    (∀ params st e, truthy params.title = true →
      (truthy params.genre || truthy params.actors || params.type.isSome) = true →
      (truthy params.actors && (params.type == some MediaType.series)) = false →
      get_search_results up params.title (params.type == some MediaType.series) = .error e →
      search_tmdb up params st = .error e) ∧
    (∀ params st e, search_tmdb up params st = .error e →
      search_movies up params st = .inl (502, "TMDB service error: " ++ errString e)) := by
  have htv : (("tv" : String) == "tv") = true := by decide
  have hmv : (("movie" : String) == "tv") = false := by decide
  refine ⟨?_, ?_, ?_, ?_, ?_, ?_, ?_, ?_, ?_, ?_, ?_, ?_, ?_, ?_, ?_, ?_, ?_, ?_,
    ?_, ?_, ?_, ?_, ?_, ?_, ?_, ?_, ?_, ?_⟩
  · intro t b hnet
    unfold get_search_results
    simp only [hnet]
  · intro t b s r hup hns
    have hr : raiseForStatus s = .error (.httpStatus s) := by
      unfold raiseForStatus
      simp [if_neg hns]
    unfold get_search_results
    simp only [hup, hr, bind, Except.bind]
  · intro b st hmiss hnet
    unfold fetch_genres
    simp only [hmiss, hnet]
  · intro b st s gl hmiss hup hns
    unfold fetch_genres
    simp only [hmiss, hup, if_neg hns]
  · intro b st hmiss hnet
    unfold get_popular
    simp only [hmiss, hnet]
  · intro b st s its hmiss hup hns
    unfold get_popular
    simp only [hmiss, hup, if_neg hns]
  · intro mt id hnet
    unfold _fetch_credits
    simp only [hnet]
  · intro mt id s c hup hns
    have hr : raiseForStatus s = .error (.httpStatus s) := by
      unfold raiseForStatus
      simp [if_neg hns]
    unfold _fetch_credits
    simp only [hup, hr, bind, Except.bind]
  · intro mt id hnet
    unfold _get_imdb_id
    simp only [hnet]
  · intro mt id s b hup hs200
    have hs : (s == 200) = false := by simp [hs200]
    unfold _get_imdb_id
    simp only [hup, hs, Bool.false_eq_true, if_false]
  · intro genre actors st gidOpt castOpt st1 hgen hact hdisc
    exact discover_movie_net up genre actors st gidOpt castOpt st1 hgen hact hdisc
  · intro genre actors st gidOpt castOpt st1 s its hgen hact hdisc hns
    exact discover_movie_status up genre actors st gidOpt castOpt st1 s its hgen hact hdisc hns
  · intro genre actors st gidOpt st1 haf hgen hdisc
    exact discover_tv_net up genre actors st gidOpt st1 haf hgen hdisc
  · intro genre actors st gidOpt st1 s its haf hgen hdisc hns
    exact discover_tv_status up genre actors st gidOpt st1 s its haf hgen hdisc hns
  · intro item mt genres params yr e hy hcred
    unfold map_to_movie
    simp only [hy, hcred, bind, Except.bind]
  · intro item mt genres params yr acts e hy hcred hdet
    unfold map_to_movie
    simp only [hy, hcred, hdet, bind, Except.bind]
  · intro item mt genres params yr acts s b hy hcred hdet hs200
    have hs : (s == 200) = false := by simp [hs200]
    have hmap : map_to_movie up item mt genres params =
        mergeRecord item mt genres params yr acts none none := by
      unfold map_to_movie _get_imdb_id
      simp only [hy, hcred, hdet, hs, Bool.false_eq_true, if_false, bind,
        Except.bind, truthy, pure, Except.pure]
    rw [hmap, mergeRecord_none_eq]
    exact ⟨_, rfl, rfl⟩
  · intro items ep genres params out hok item hmem
    rw [mapAll_eq_mapM'] at hok
    exact mapM'_ok_mem (fun it => map_to_movie up it ep genres params) items out hok item hmem
  · intro params st e ht hg ha hty he
    rw [router_eq_title_only up params st ht hg ha hty]
    unfold _search_by_title_only
    simp only [hty, Option.isNone_none, if_true, List.foldlM_cons, List.foldlM_nil]
    simp only [htv]
    rw [he]
    simp only [bind, Except.bind]
  · intro params st e data ep ht hg ha hty hsr hfg
    rw [router_eq_title_only up params st ht hg ha hty]
    unfold _search_by_title_only
    simp only [hty, Option.isNone_none, if_true, List.foldlM_cons, List.foldlM_nil]
    simp only [htv]
    rw [hsr]
    simp only [bind, Except.bind]
    rw [hfg]
  · intro params st e data ep gm st1 ht hg ha hty hsr hfg hmap
    rw [router_eq_title_only up params st ht hg ha hty]
    unfold _search_by_title_only
    simp only [hty, Option.isNone_none, if_true, List.foldlM_cons, List.foldlM_nil]
    simp only [htv]
    rw [hsr]
    simp only [bind, Except.bind]
    rw [hfg]
    simp only [bind, Except.bind]
    rw [hmap]
  · intro params st e data ep gm st1 mapped ht hg ha hty hsr hfg hmap he
    rw [router_eq_title_only up params st ht hg ha hty]
    unfold _search_by_title_only
    simp only [hty, Option.isNone_none, if_true, List.foldlM_cons, List.foldlM_nil]
    simp only [htv, hmv]
    rw [hsr]
    simp only [bind, Except.bind]
    rw [hfg]
    simp only [bind, Except.bind]
    rw [hmap]
    simp only [bind, Except.bind, pure, Except.pure]
    rw [he]
  · intro params st e ht hg ha hty he
    rw [router_eq_fallback up params st ht hg ha hty]
    unfold _get_popular_fallback
    rw [he]
    simp only [bind, Except.bind]
  · intro params st e mp st1 ht hg ha hty hmp he
    rw [router_eq_fallback up params st ht hg ha hty]
    unfold _get_popular_fallback
    rw [hmp]
    simp only [bind, Except.bind]
    rw [he]
  · intro params st e ht hfil he
    rw [router_eq_filters_only up params st ht hfil]
    unfold _search_by_filters_only
    rw [he]
    simp only [bind, Except.bind]
  · intro params st e ht hfil hcond he
    rw [router_eq_with_filters up params st ht hfil]
    unfold _search_by_title_with_filters
    simp only [hcond, if_true]
    rw [he]
    simp only [bind, Except.bind]
  · intro params st e ht hfil hcond he
    rw [router_eq_with_filters up params st ht hfil]
    unfold _search_by_title_with_filters
    simp only [hcond, Bool.false_eq_true, if_false]
    rw [he]
    simp only [bind, Except.bind]
  · intro params st e hs
    unfold search_movies
    simp only [hs]

/-- Counterexample upstream for C6: the per-item detail call answers 500. -/
def upC6cx : Upstream := { upDead with
  search := fun _ isS => some (200, if isS then [] else [{ id := 7 }]),
  genreList := fun _ => some (200, []),
  credits := fun _ _ => some (200, []),
  detail := fun _ _ => some (500, none) }

/-- Counterexample to C6 as stated: a 500 on the required per-item detail call
does not surface as an upstream error — the whole request still succeeds, with
a degraded PrimaryOnly record. -/
theorem C6_counterexample :
    upC6cx.detail "movie" 7 = some (500, none) ∧ ¬(200 ≤ 500 ∧ 500 ≤ 299) ∧
    search_movies upC6cx { title := some "x" } {} =
      .inr [{ id := "7", title := "", type := .movie, source := "TMDB" }] := by decide

/-- Witness upstream for C6 (amended): live credits, network-dead detail call. -/
def upC6w : Upstream := { upDead with credits := fun _ _ => some (200, []) }

/-- Witness for C6 (amended): a network error on the detail call is fatal. -/
theorem C6_upstream_failures_witness :
    map_to_movie upC6w { id := 4 } "movie" [] {} = .error .network := by
  obtain ⟨-, -, -, -, -, -, -, -, -, -, -, -, -, -, -, h16, -⟩ := C6_upstream_failures upC6w
  exact h16 { id := 4 } "movie" [] {} none [] .network (by decide) (by decide) (by decide)

end MovieAPI
